import Mathlib

/-!
Verification of the hotkey-driven clipboard capture and completion pipeline
of the Text Improver application (`src/services/text_processor.py`,
`src/services/clipboard_monitor.py`, `src/ui/app.py`).

Python strings are modelled as `List Char`.  `str.strip`, `str.lower` and the
`in` substring test are embedded for the ASCII range, which covers every
keyword and message the program uses.
-/

/-- ASCII whitespace recognised by Python `str.strip`. -/
def pyIsSpace (c : Char) : Bool :=
  c = ' ' || c = '\t' || c = '\n' || c = '\x0d' || c = '\x0b' || c = '\x0c'

/-- Python `str.strip()`: drop whitespace from both ends. -/
def pyStrip (s : List Char) : List Char :=
  ((s.dropWhile pyIsSpace).reverse.dropWhile pyIsSpace).reverse

/-- Python `str.lower()` on the ASCII range. -/
def pyLower (s : List Char) : List Char :=
  s.map Char.toLower

/-- Python substring test `needle in hay`. -/
def strContains : List Char → List Char → Bool
  | [], needle => needle.isEmpty
  | h :: t, needle => List.isPrefixOf needle (h :: t) || strContains t needle

/-- Message returned by `_handle_api_error` for rate-limit errors. -/
def rate_limit_msg : List Char :=
  ("Error: Rate limit exceeded. Please try again in a moment.").data

/-- Message returned by `_handle_api_error` for authentication errors. -/
def auth_failed_msg : List Char :=
  ("Error: Authentication failed. Please check your API key.").data

/-- Message returned by `_handle_api_error` for timeouts. -/
def timeout_msg : List Char :=
  ("Error: Request timed out. The server might be busy, please try again.").data

/-- Message returned by `_handle_api_error` for connection problems. -/
def connection_msg : List Char :=
  ("Error: Connection issue. Please check your internet connection.").data

/-- Message returned by `_extract_content_from_response` when extraction fails. -/
def extraction_error_msg : List Char :=
  ("Error processing response from API.").data

/-- `_handle_api_error` from `src/services/text_processor.py`: classify the
error text by case-insensitive substring tests, in source order. -/
def handle_api_error (error_str : List Char) : List Char :=
  if strContains (pyLower error_str) (("rate limit").data) then
    rate_limit_msg
  else if strContains (pyLower error_str) (("authentication").data) ||
          strContains (pyLower error_str) (("api key").data) then
    auth_failed_msg
  else if strContains (pyLower error_str) (("timeout").data) ||
          strContains (pyLower error_str) (("timed out").data) then
    timeout_msg
  else if strContains (pyLower error_str) (("connection").data) then
    connection_msg
  else
    ("Error: ").data ++ error_str

/-- C1: for every error text, `_handle_api_error` returns the rate-limit
message when the lowercased text contains "rate limit"; failing that, the
authentication message when it contains "authentication" or "api key";
failing those, the timeout message when it contains "timeout" or "timed out";
failing those, the connection message when it contains "connection"; and
otherwise a generic message embedding the raw error text. -/
theorem claim_C1_error_classification (e : List Char) :
    (strContains (pyLower e) (("rate limit").data) = true →
      handle_api_error e = rate_limit_msg) ∧
    (strContains (pyLower e) (("rate limit").data) = false →
      (strContains (pyLower e) (("authentication").data) = true ∨
       strContains (pyLower e) (("api key").data) = true) →
      handle_api_error e = auth_failed_msg) ∧
    (strContains (pyLower e) (("rate limit").data) = false →
      strContains (pyLower e) (("authentication").data) = false →
      strContains (pyLower e) (("api key").data) = false →
      (strContains (pyLower e) (("timeout").data) = true ∨
       strContains (pyLower e) (("timed out").data) = true) →
      handle_api_error e = timeout_msg) ∧
    (strContains (pyLower e) (("rate limit").data) = false →
      strContains (pyLower e) (("authentication").data) = false →
      strContains (pyLower e) (("api key").data) = false →
      strContains (pyLower e) (("timeout").data) = false →
      strContains (pyLower e) (("timed out").data) = false →
      strContains (pyLower e) (("connection").data) = true →
      handle_api_error e = connection_msg) ∧
    (strContains (pyLower e) (("rate limit").data) = false →
      strContains (pyLower e) (("authentication").data) = false →
      strContains (pyLower e) (("api key").data) = false →
      strContains (pyLower e) (("timeout").data) = false →
      strContains (pyLower e) (("timed out").data) = false →
      strContains (pyLower e) (("connection").data) = false →
      handle_api_error e = ("Error: ").data ++ e) := by
  refine ⟨?_, ?_, ?_, ?_, ?_⟩
  · intro h
    simp [handle_api_error, h]
  · intro h0 h
    rcases h with h | h <;> simp [handle_api_error, h0, h]
  · intro h0 h1 h2 h
    rcases h with h | h <;> simp [handle_api_error, h0, h1, h2, h]
  · intro h0 h1 h2 h3 h4 h5
    simp [handle_api_error, h0, h1, h2, h3, h4, h5]
  · intro h0 h1 h2 h3 h4 h5
    simp [handle_api_error, h0, h1, h2, h3, h4, h5]

/-- Witness for C1 on concrete error texts: a mixed-case rate-limit error and
an unclassifiable error. -/
theorem claim_C1_error_classification_witness :
    handle_api_error (("RATE LIMIT reached").data) = rate_limit_msg ∧
    handle_api_error (("boom").data) = ("Error: ").data ++ ("boom").data :=
  ⟨(claim_C1_error_classification (("RATE LIMIT reached").data)).1 (by rfl),
   (claim_C1_error_classification (("boom").data)).2.2.2.2
     (by rfl) (by rfl) (by rfl) (by rfl) (by rfl) (by rfl)⟩

/-- C10: classification follows a fixed priority order.  A rate-limit match
wins over everything; an authentication match can only be overridden by the
rate-limit message; a timeout match only by the rate-limit or authentication
messages; a connection match only by the three above.  In particular an error
text containing both "connection" and "rate limit" is classified as
rate-limited. -/
theorem claim_C10_priority_order (e : List Char) :
    (strContains (pyLower e) (("rate limit").data) = true →
      handle_api_error e = rate_limit_msg) ∧
    ((strContains (pyLower e) (("authentication").data) = true ∨
      strContains (pyLower e) (("api key").data) = true) →
      (handle_api_error e = rate_limit_msg ∨
       handle_api_error e = auth_failed_msg)) ∧
    ((strContains (pyLower e) (("timeout").data) = true ∨
      strContains (pyLower e) (("timed out").data) = true) →
      (handle_api_error e = rate_limit_msg ∨
       handle_api_error e = auth_failed_msg ∨
       handle_api_error e = timeout_msg)) ∧
    (strContains (pyLower e) (("connection").data) = true →
      (handle_api_error e = rate_limit_msg ∨
       handle_api_error e = auth_failed_msg ∨
       handle_api_error e = timeout_msg ∨
       handle_api_error e = connection_msg)) ∧
    (strContains (pyLower e) (("connection").data) = true →
      strContains (pyLower e) (("rate limit").data) = true →
      handle_api_error e = rate_limit_msg) := by
  refine ⟨?_, ?_, ?_, ?_, ?_⟩
  · intro h
    simp [handle_api_error, h]
  · intro h
    by_cases h0 : strContains (pyLower e) (("rate limit").data) = true
    · left; simp [handle_api_error, h0]
    · right
      rcases h with h | h <;>
        simp [handle_api_error, h0, h]
  · intro h
    by_cases h0 : strContains (pyLower e) (("rate limit").data) = true
    · left; simp [handle_api_error, h0]
    · by_cases h1 : (strContains (pyLower e) (("authentication").data) ||
          strContains (pyLower e) (("api key").data)) = true
      · right; left
        simp [handle_api_error, h0, h1]
      · right; right
        rcases h with h | h <;>
          simp_all [handle_api_error]
  · intro h
    by_cases h0 : strContains (pyLower e) (("rate limit").data) = true
    · left; simp [handle_api_error, h0]
    · by_cases h1 : (strContains (pyLower e) (("authentication").data) ||
          strContains (pyLower e) (("api key").data)) = true
      · right; left
        simp [handle_api_error, h0, h1]
      · by_cases h2 : (strContains (pyLower e) (("timeout").data) ||
            strContains (pyLower e) (("timed out").data)) = true
        · right; right; left
          simp_all [handle_api_error]
        · right; right; right
          simp_all [handle_api_error]
  · intro _ h0
    simp [handle_api_error, h0]

/-- Witness for C10: an error text containing both "connection" and
"rate limit" is classified as rate-limited, not as a connection error. -/
theorem claim_C10_priority_order_witness :
    handle_api_error (("Connection refused after rate limit").data) =
      rate_limit_msg :=
  (claim_C10_priority_order
      (("Connection refused after rate limit").data)).2.2.2.2
    (by rfl) (by rfl)

/-- The key name delivered by the keyboard hook for the Shift key. -/
def shiftKey : List Char := ("shift").data

/-- The double-press interval `_shift_interval_ms` from `src/ui/app.py`. -/
def shift_interval_ms : Int := 400

/-- `_handle_shift_double_press` from `src/ui/app.py`.  State is
`_last_shift_time` (milliseconds); the result pairs the new state with
whether the gesture (and hence `_on_hotkey_pressed`) fired. -/
def handle_shift_double_press (last : Int) (key : List Char) (now : Int) :
    Int × Bool :=
  if key = shiftKey then
    if now - last < shift_interval_ms then (0, true) else (now, false)
  else (last, false)

/-- C2: a Shift press within 400 ms of the recorded last press fires the
gesture exactly once and resets the timestamp to the sentinel 0; a press at
an interval of 400 ms or more fires nothing and records its own timestamp.
Consequently three fast presses (each pair under 400 ms, so all within
2×400 ms) fire only on the second press: with epoch-scale timestamps
(`time.time() * 1000`, hence ≥ 400) the third press measured against the
sentinel starts a new window instead of firing. -/
theorem claim_C2_double_press (last t1 t2 t3 : Int) :
    (t1 - last < shift_interval_ms →
      handle_shift_double_press last shiftKey t1 = (0, true)) ∧
    (shift_interval_ms ≤ t1 - last →
      handle_shift_double_press last shiftKey t1 = (t1, false)) ∧
    (shift_interval_ms ≤ t1 - last →
      shift_interval_ms ≤ t1 →
      t1 ≤ t2 → t2 ≤ t3 →
      t2 - t1 < shift_interval_ms →
      t3 - t2 < shift_interval_ms →
      handle_shift_double_press last shiftKey t1 = (t1, false) ∧
      handle_shift_double_press t1 shiftKey t2 = (0, true) ∧
      handle_shift_double_press 0 shiftKey t3 = (t3, false)) := by
  refine ⟨?_, ?_, ?_⟩
  · intro h
    simp [handle_shift_double_press, h]
  · intro h
    simp [handle_shift_double_press, not_lt.mpr h]
  · intro h1 h2 h3 h4 h5 _
    refine ⟨?_, ?_, ?_⟩
    · simp [handle_shift_double_press, not_lt.mpr h1]
    · simp [handle_shift_double_press, h5]
    · have h6 : shift_interval_ms ≤ t3 - 0 := by
        simp only [shift_interval_ms] at h2 ⊢
        omega
      simp [handle_shift_double_press, not_lt.mpr h6, shift_interval_ms]
      simp only [shift_interval_ms] at h2
      omega

/-- Witness for C2: concrete epoch-scale presses at 1000 ms, 1100 ms and
1300 ms — the first starts a window, the second fires and resets to the
sentinel, the third does not fire. -/
theorem claim_C2_double_press_witness :
    handle_shift_double_press 0 shiftKey 1000 = (1000, false) ∧
    handle_shift_double_press 1000 shiftKey 1100 = (0, true) ∧
    handle_shift_double_press 0 shiftKey 1300 = (1300, false) :=
  (claim_C2_double_press 0 1000 1100 1300).2.2
    (by decide) (by decide) (by decide) (by decide) (by decide) (by decide)

/-- Notifications the capture routine sends to the presentation widgets:
`displayCaptured` is the write of captured text into the selected-text
textbox; `displayPlaceholder` is the write of the "nothing copied" message. -/
inductive UIEvent where
  | displayCaptured (text : List Char)
  | displayPlaceholder (message : List Char)
  deriving DecidableEq

/-- The mutable state of `TextImproverApp` relevant to the capture and
completion pipeline.  `improveDisabled`/`interviewDisabled` mirror the
tkinter `state="disabled"` of the two action buttons (disabled while a call
is pending); `improveCalls`/`interviewCalls` count dispatched background
API threads; `resultShown` mirrors whether `result_frame` is packed. -/
structure AppState where
  selectedText : List Char
  selectedTextDisplay : List Char
  resultDisplay : List Char
  resultShown : Bool
  improveDisabled : Bool
  interviewDisabled : Bool
  improveCalls : Nat
  interviewCalls : Nat
  processingSelection : Bool
  deriving DecidableEq

/-- The state set up in `TextImproverApp.__init__`. -/
def initState : AppState :=
  { selectedText := []
    selectedTextDisplay := []
    resultDisplay := []
    resultShown := false
    improveDisabled := false
    interviewDisabled := false
    improveCalls := 0
    interviewCalls := 0
    processingSelection := false }

/-- The placeholder message written by `_on_hotkey_pressed` when the
clipboard is empty after trimming. -/
def nothing_copied_msg : List Char :=
  ("No text was copied. Please select text and try again.").data

/-- `process_selected_text` from `src/ui/app.py`: guarded by the
`processing_selection` reentrancy flag, it trims the text, stores it as
`selected_text`, writes it to the selected-text display and hides the
result frame (window raising and the highlight effect are cosmetic and
omitted).  The flag is cleared again in the `finally` block. -/
def process_selected_text (s : AppState) (text : List Char) :
    AppState × List UIEvent :=
  if s.processingSelection then (s, [])
  else
    let st := pyStrip text
    if st.isEmpty then ({ s with selectedText := st }, [])
    else
      ({ s with
          selectedText := st
          selectedTextDisplay := st
          resultShown := false },
       [UIEvent.displayCaptured st])

/-- `_on_hotkey_pressed` from `src/ui/app.py`, after the synthesized Ctrl+C
and the settle delay: given the clipboard snapshot, it either processes the
text (non-empty after trimming) or writes the "nothing copied" placeholder
into the selected-text display, leaving the rest of the state alone. -/
def on_hotkey_pressed (s : AppState) (clipboard : List Char) :
    AppState × List UIEvent :=
  if (pyStrip clipboard).isEmpty then
    ({ s with selectedTextDisplay := nothing_copied_msg },
     [UIEvent.displayPlaceholder nothing_copied_msg])
  else process_selected_text s clipboard

/-- The "Improving your text..." busy message shown by `improve_text`. -/
def improving_msg : List Char := ("Improving your text...").data

/-- The "Generating interview answer..." busy message shown by
`answer_interview_question`. -/
def generating_msg : List Char := ("Generating interview answer...").data

/-- A click of the Improve button.  The method `improve_text` in
`src/ui/app.py` shows the result frame with a busy message, disables the
button and dispatches one background API thread; the toolkit does not invoke
the command of a button whose state is `disabled`, so a click while disabled
is a no-op. -/
def improve_text_click (s : AppState) : AppState :=
  if s.improveDisabled then s
  else
    { s with
        resultShown := true
        resultDisplay := improving_msg
        improveDisabled := true
        improveCalls := s.improveCalls + 1 }

/-- A click of the Interview button (`answer_interview_question` in
`src/ui/app.py`), with the same toolkit behaviour for a disabled button. -/
def answer_interview_click (s : AppState) : AppState :=
  if s.interviewDisabled then s
  else
    { s with
        resultShown := true
        resultDisplay := generating_msg
        interviewDisabled := true
        interviewCalls := s.interviewCalls + 1 }

/-- `_update_result` from `src/ui/app.py`: unconditionally writes the
completion result into the result display (the typewriter animation ends
with the full text inserted) and re-enables the Improve button.  There is
no check relating the result to the current capture. -/
def update_result (s : AppState) (result : List Char) : AppState :=
  { s with resultDisplay := result, improveDisabled := false }

/-- `_update_interview_result` from `src/ui/app.py`: same shape for the
Interview button. -/
def update_interview_result (s : AppState) (result : List Char) : AppState :=
  { s with resultDisplay := result, interviewDisabled := false }

/-- The events that drive the application state: a hotkey capture with the
given clipboard snapshot, a button click, or the arrival of a completion
response posted back to the UI loop by a background thread. -/
inductive Ev where
  | capture (clipboard : List Char)
  | clickImprove
  | clickInterview
  | completeImprove (result : List Char)
  | completeInterview (result : List Char)
  deriving DecidableEq

/-- One step of the application in response to an event. -/
def step (s : AppState) (e : Ev) : AppState :=
  match e with
  | Ev.capture c => (on_hotkey_pressed s c).1
  | Ev.clickImprove => improve_text_click s
  | Ev.clickInterview => answer_interview_click s
  | Ev.completeImprove r => update_result s r
  | Ev.completeInterview r => update_interview_result s r

/-- Run the application over a list of events. -/
def run (s : AppState) (es : List Ev) : AppState :=
  es.foldl step s

/-- C4: whenever the clipboard is non-empty after trimming (and no capture is
already in progress), the hotkey handler emits `displayCaptured` with exactly
the trimmed clipboard text, stores that text as the new capture session
(replacing the previous `selected_text`), and hides any previously shown
result. -/
theorem claim_C4_capture_nonempty (s : AppState) (clipboard : List Char)
    (hflag : s.processingSelection = false)
    (hne : (pyStrip clipboard).isEmpty = false) :
    (on_hotkey_pressed s clipboard).2 =
      [UIEvent.displayCaptured (pyStrip clipboard)] ∧
    (on_hotkey_pressed s clipboard).1.selectedText = pyStrip clipboard ∧
    (on_hotkey_pressed s clipboard).1.selectedTextDisplay = pyStrip clipboard ∧
    (on_hotkey_pressed s clipboard).1.resultShown = false := by
  simp [on_hotkey_pressed, process_selected_text, hflag, hne]

/-- Witness for C4: capturing `"  this is a test.  "` from the initial state
displays exactly the trimmed text and hides the result frame. -/
theorem claim_C4_capture_nonempty_witness :
    (on_hotkey_pressed initState (("  this is a test.  ").data)).2 =
      [UIEvent.displayCaptured (pyStrip (("  this is a test.  ").data))] ∧
    (on_hotkey_pressed initState
        (("  this is a test.  ").data)).1.selectedText =
      pyStrip (("  this is a test.  ").data) ∧
    (on_hotkey_pressed initState
        (("  this is a test.  ").data)).1.selectedTextDisplay =
      pyStrip (("  this is a test.  ").data) ∧
    (on_hotkey_pressed initState
        (("  this is a test.  ").data)).1.resultShown = false :=
  claim_C4_capture_nonempty initState (("  this is a test.  ").data)
    (by rfl) (by rfl)

/-- C5: whenever the clipboard is empty or whitespace-only after trimming,
the hotkey handler emits only `displayPlaceholder` with the "nothing copied"
message — never `displayCaptured` — and leaves the stored capture, the
result visibility, the result text and the button states untouched. -/
theorem claim_C5_capture_empty (s : AppState) (clipboard : List Char)
    (hemp : (pyStrip clipboard).isEmpty = true) :
    (on_hotkey_pressed s clipboard).2 =
      [UIEvent.displayPlaceholder nothing_copied_msg] ∧
    (∀ t, UIEvent.displayCaptured t ∉ (on_hotkey_pressed s clipboard).2) ∧
    (on_hotkey_pressed s clipboard).1.selectedText = s.selectedText ∧
    (on_hotkey_pressed s clipboard).1.resultShown = s.resultShown ∧
    (on_hotkey_pressed s clipboard).1.resultDisplay = s.resultDisplay ∧
    (on_hotkey_pressed s clipboard).1.improveDisabled = s.improveDisabled ∧
    (on_hotkey_pressed s clipboard).1.interviewDisabled =
      s.interviewDisabled := by
  simp [on_hotkey_pressed, hemp]

/-- Witness for C5: a whitespace-only clipboard from the initial state yields
the placeholder and changes nothing else. -/
theorem claim_C5_capture_empty_witness :
    (on_hotkey_pressed initState (("   ").data)).2 =
      [UIEvent.displayPlaceholder nothing_copied_msg] ∧
    (∀ t, UIEvent.displayCaptured t ∉
      (on_hotkey_pressed initState (("   ").data)).2) ∧
    (on_hotkey_pressed initState (("   ").data)).1.selectedText =
      initState.selectedText ∧
    (on_hotkey_pressed initState (("   ").data)).1.resultShown =
      initState.resultShown ∧
    (on_hotkey_pressed initState (("   ").data)).1.resultDisplay =
      initState.resultDisplay ∧
    (on_hotkey_pressed initState (("   ").data)).1.improveDisabled =
      initState.improveDisabled ∧
    (on_hotkey_pressed initState (("   ").data)).1.interviewDisabled =
      initState.interviewDisabled :=
  claim_C5_capture_empty initState (("   ").data) (by rfl)

/-- C6: while an action is pending its button is disabled, and a click of a
disabled button is a no-op, so submitting again dispatches no second call.
From any state with the button enabled, clicking once disables it and
dispatches exactly one background call; a second click changes nothing and
the call count stays at one more than before, for both action buttons. -/
theorem claim_C6_pending_noop (s : AppState) :
    (s.improveDisabled = true →
      improve_text_click s = s) ∧
    (s.improveDisabled = false →
      (improve_text_click s).improveDisabled = true ∧
      (improve_text_click s).improveCalls = s.improveCalls + 1 ∧
      improve_text_click (improve_text_click s) = improve_text_click s) ∧
    (s.interviewDisabled = true →
      answer_interview_click s = s) ∧
    (s.interviewDisabled = false →
      (answer_interview_click s).interviewDisabled = true ∧
      (answer_interview_click s).interviewCalls = s.interviewCalls + 1 ∧
      answer_interview_click (answer_interview_click s) =
        answer_interview_click s) := by
  refine ⟨?_, ?_, ?_, ?_⟩
  · intro h
    simp [improve_text_click, h]
  · intro h
    simp [improve_text_click, h]
  · intro h
    simp [answer_interview_click, h]
  · intro h
    simp [answer_interview_click, h]

/-- Witness for C6: from the initial state, two Improve clicks dispatch one
call, and from the resulting pending state a click is the identity. -/
theorem claim_C6_pending_noop_witness :
    (improve_text_click initState).improveCalls = initState.improveCalls + 1 ∧
    improve_text_click (improve_text_click initState) =
      improve_text_click initState :=
  ⟨((claim_C6_pending_noop initState).2.1 (by rfl)).2.1,
   ((claim_C6_pending_noop initState).2.1 (by rfl)).2.2⟩

/-- C7 fails on the code: a new capture does not force pending action buttons
back to idle.  From a state whose Improve button is disabled (pending), a
fresh capture emits `displayCaptured` yet leaves the button disabled. -/
theorem claim_C7_counterexample :
    (process_selected_text
        { initState with improveDisabled := true } (("hello").data)).2 =
      [UIEvent.displayCaptured (("hello").data)] ∧
    (process_selected_text
        { initState with improveDisabled := true }
        (("hello").data)).1.improveDisabled = true := by
  constructor <;> rfl

/-- C7 amended: a new capture session hides any previously shown result, but
leaves both action buttons' states (and dispatched-call counts) unchanged; a
pending button is re-enabled only by its own completion callback. -/
theorem claim_C7_amended_capture_keeps_button_state
    (s : AppState) (text : List Char)
    (hflag : s.processingSelection = false)
    (hne : (pyStrip text).isEmpty = false) :
    (process_selected_text s text).1.resultShown = false ∧
    (process_selected_text s text).1.improveDisabled = s.improveDisabled ∧
    (process_selected_text s text).1.interviewDisabled =
      s.interviewDisabled ∧
    (process_selected_text s text).1.improveCalls = s.improveCalls ∧
    (process_selected_text s text).1.interviewCalls = s.interviewCalls := by
  simp [process_selected_text, hflag, hne]

/-- Witness for the amended C7 at a concrete pending state. -/
theorem claim_C7_amended_witness :
    (process_selected_text
        { initState with improveDisabled := true }
        (("hello").data)).1.resultShown = false ∧
    (process_selected_text
        { initState with improveDisabled := true }
        (("hello").data)).1.improveDisabled =
      ({ initState with improveDisabled := true } : AppState).improveDisabled ∧
    (process_selected_text
        { initState with improveDisabled := true }
        (("hello").data)).1.interviewDisabled =
      ({ initState with improveDisabled := true } : AppState).interviewDisabled ∧
    (process_selected_text
        { initState with improveDisabled := true }
        (("hello").data)).1.improveCalls =
      ({ initState with improveDisabled := true } : AppState).improveCalls ∧
    (process_selected_text
        { initState with improveDisabled := true }
        (("hello").data)).1.interviewCalls =
      ({ initState with improveDisabled := true } : AppState).interviewCalls :=
  claim_C7_amended_capture_keeps_button_state
    { initState with improveDisabled := true } (("hello").data)
    (by rfl) (by rfl)

/-- C3 fails on the code: a completion response that arrives after a newer
capture is applied anyway — there is no session identifier.  Concretely:
capture "A", click Improve (its call is now in flight), capture "B", click
Interview and receive its answer for "B"; when the stale Improve response
for "A" then arrives it is written into the visible result display, over
the newer capture's answer. -/
theorem claim_C3_counterexample :
    (run initState
        [Ev.capture (("A").data),
         Ev.clickImprove,
         Ev.capture (("B").data),
         Ev.clickInterview,
         Ev.completeInterview (("answer for B").data),
         Ev.completeImprove (("improved A").data)]).selectedText =
      ("B").data ∧
    (run initState
        [Ev.capture (("A").data),
         Ev.clickImprove,
         Ev.capture (("B").data),
         Ev.clickInterview,
         Ev.completeInterview (("answer for B").data),
         Ev.completeImprove (("improved A").data)]).resultShown = true ∧
    (run initState
        [Ev.capture (("A").data),
         Ev.clickImprove,
         Ev.capture (("B").data),
         Ev.clickInterview,
         Ev.completeInterview (("answer for B").data),
         Ev.completeImprove (("improved A").data)]).resultDisplay =
      ("improved A").data := by
  refine ⟨?_, ?_, ?_⟩ <;> rfl

/-- C3 amended: completion responses carry no session identifier and are
never discarded — `_update_result` (and `_update_interview_result`) always
writes its argument into the result display and re-enables its button,
regardless of how the current capture session relates to the one that
scheduled the call. -/
theorem claim_C3_amended_no_session_guard (s : AppState) (result : List Char) :
    (update_result s result).resultDisplay = result ∧
    (update_result s result).improveDisabled = false ∧
    (update_result s result).selectedText = s.selectedText ∧
    (update_interview_result s result).resultDisplay = result ∧
    (update_interview_result s result).interviewDisabled = false ∧
    (update_interview_result s result).selectedText = s.selectedText := by
  refine ⟨rfl, rfl, rfl, rfl, rfl, rfl⟩

/-- `max_text_length` from `src/services/clipboard_monitor.py`. -/
def max_text_length : Nat := 10000

/-- The state of `ClipboardMonitor`: the last known clipboard content and
the `ctrl_c_pressed` flag. -/
structure MonitorState where
  last : List Char
  ctrlC : Bool
  deriving DecidableEq

/-- One iteration of `ClipboardMonitor._monitor`'s loop body over the
current clipboard snapshot: the Ctrl+C branch fires the callback on any
non-empty text; the regular change-detection branch additionally requires
the text to have changed and to be shorter than `max_text_length`.  The
returned option is the argument of the callback invocation, if any. -/
def monitor_step (s : MonitorState) (current : List Char) :
    MonitorState × Option (List Char) :=
  if s.ctrlC = true ∧ (pyStrip current).isEmpty = false then
    ({ last := current, ctrlC := false }, some current)
  else if current ≠ s.last ∧ (pyStrip current).isEmpty = false ∧
          current.length < max_text_length then
    ({ s with last := current }, some current)
  else (s, none)

/-- C8: clipboard text longer than 10,000 characters is ignored by the
continuous-monitoring path (with no Ctrl+C press pending, the callback is
not invoked and the state is unchanged), while the direct hotkey-capture
path forwards the trimmed capture to the display regardless of its
length. -/
theorem claim_C8_length_policy :
    (∀ (s : MonitorState) (current : List Char),
      s.ctrlC = false →
      max_text_length < current.length →
      monitor_step s current = (s, none)) ∧
    (∀ (s : AppState) (clipboard : List Char),
      s.processingSelection = false →
      (pyStrip clipboard).isEmpty = false →
      max_text_length < clipboard.length →
      (on_hotkey_pressed s clipboard).2 =
        [UIEvent.displayCaptured (pyStrip clipboard)]) := by
  constructor
  · intro s current hc hlen
    have hnot : ¬ current.length < max_text_length := by omega
    simp [monitor_step, hc, hnot]
  · intro s clipboard hflag hne _
    simp [on_hotkey_pressed, process_selected_text, hflag, hne]

/-- `str.strip` leaves a run of letters unchanged. -/
theorem pyStrip_replicate_a (n : Nat) :
    pyStrip (List.replicate n 'a') = List.replicate n 'a' := by
  have hdrop : List.dropWhile pyIsSpace (List.replicate n 'a') =
      List.replicate n 'a' := by
    cases n with
    | zero => rfl
    | succ m =>
      rw [List.replicate_succ, List.dropWhile_cons]
      simp [pyIsSpace]
  unfold pyStrip
  rw [hdrop, List.reverse_replicate, hdrop, List.reverse_replicate]

/-- Witness for C8: a 10,001-character text is ignored by the monitor loop
but forwarded by the hotkey path. -/
theorem claim_C8_length_policy_witness :
    monitor_step { last := [], ctrlC := false }
        (List.replicate 10001 'a') =
      ({ last := [], ctrlC := false }, none) ∧
    (on_hotkey_pressed initState (List.replicate 10001 'a')).2 =
      [UIEvent.displayCaptured (pyStrip (List.replicate 10001 'a'))] := by
  have hlen : max_text_length < (List.replicate 10001 'a').length := by
    rw [List.length_replicate]
    norm_num [max_text_length]
  have hne : (pyStrip (List.replicate 10001 'a')).isEmpty = false := by
    rw [pyStrip_replicate_a, List.replicate_succ]
    rfl
  constructor
  · exact claim_C8_length_policy.1 { last := [], ctrlC := false }
      (List.replicate 10001 'a') rfl hlen
  · exact claim_C8_length_policy.2 initState (List.replicate 10001 'a')
      rfl hne hlen

/-- The possible outcomes of the underlying completion call inside
`improve_text` / `answer_interview_question` in
`src/services/text_processor.py`: the Gemini branch returns `response.text`;
the OpenRouter branch returns a response whose content either extracts (and
is stripped) or makes `_extract_content_from_response` fail internally; or
the call raises, with `str(e)` as the message. -/
inductive ApiCall where
  | geminiText (text : List Char)
  | openrouterContent (content : List Char)
  | openrouterMalformed
  | raised (msg : List Char)
  deriving DecidableEq

/-- `improve_text` from `src/services/text_processor.py`: the whole body is
wrapped in try/except, the except branch returning
`_handle_api_error(e)`; `_extract_content_from_response` itself catches its
own failures and returns a fixed message. -/
def improve_text : ApiCall → List Char
  | ApiCall.geminiText t => t
  | ApiCall.openrouterContent c => pyStrip c
  | ApiCall.openrouterMalformed => extraction_error_msg
  | ApiCall.raised m => handle_api_error m

/-- `answer_interview_question` from `src/services/text_processor.py`: the
same try/except structure as `improve_text`. -/
def answer_interview_question : ApiCall → List Char
  | ApiCall.geminiText t => t
  | ApiCall.openrouterContent c => pyStrip c
  | ApiCall.openrouterMalformed => extraction_error_msg
  | ApiCall.raised m => handle_api_error m

/-- `ClipboardMonitor.get_clipboard_content`: returns the pasted text, or
the empty string when `pyperclip.paste` raises. -/
def get_clipboard_content : Except Unit (List Char) → List Char
  | Except.ok t => t
  | Except.error _ => []

/-- `ClipboardMonitor.set_clipboard_content`: records the text as the last
known clipboard content (before attempting the copy), then returns whether
`pyperclip.copy` succeeded. -/
def set_clipboard_content (s : MonitorState) (text : List Char) :
    Except Unit Unit → MonitorState × Bool
  | Except.ok _ => ({ s with last := text }, true)
  | Except.error _ => ({ s with last := text }, false)

/-- Every output of `_handle_api_error` is an "Error"-headed display
message. -/
theorem handle_api_error_error_headed (m : List Char) :
    List.isPrefixOf (("Error").data) (handle_api_error m) = true := by
  unfold handle_api_error
  split_ifs <;> rfl

/-- C9: the completion-client operations and the clipboard-access operations
never propagate a fault: every outcome of the underlying call maps to a
normal return value — the success payload (stripped on the OpenRouter path),
or an "Error"-headed classified message; clipboard reads degrade to the
empty string on failure and clipboard writes return a boolean. -/
theorem claim_C9_no_fault_propagation :
    (∀ call : ApiCall,
      (∃ t, call = ApiCall.geminiText t ∧ improve_text call = t) ∨
      (∃ c, call = ApiCall.openrouterContent c ∧
        improve_text call = pyStrip c) ∨
      List.isPrefixOf (("Error").data) (improve_text call) = true) ∧
    (∀ call : ApiCall,
      (∃ t, call = ApiCall.geminiText t ∧
        answer_interview_question call = t) ∨
      (∃ c, call = ApiCall.openrouterContent c ∧
        answer_interview_question call = pyStrip c) ∨
      List.isPrefixOf (("Error").data)
        (answer_interview_question call) = true) ∧
    (∀ r : Except Unit (List Char),
      (∃ t, r = Except.ok t ∧ get_clipboard_content r = t) ∨
      get_clipboard_content r = []) ∧
    (∀ (s : MonitorState) (text : List Char),
      (set_clipboard_content s text (Except.ok ())).2 = true ∧
      (set_clipboard_content s text (Except.error ())).2 = false) := by
  refine ⟨?_, ?_, ?_, ?_⟩
  · intro call
    cases call with
    | geminiText t => exact Or.inl ⟨t, rfl, rfl⟩
    | openrouterContent c => exact Or.inr (Or.inl ⟨c, rfl, rfl⟩)
    | openrouterMalformed => exact Or.inr (Or.inr (by rfl))
    | raised m => exact Or.inr (Or.inr (handle_api_error_error_headed m))
  · intro call
    cases call with
    | geminiText t => exact Or.inl ⟨t, rfl, rfl⟩
    | openrouterContent c => exact Or.inr (Or.inl ⟨c, rfl, rfl⟩)
    | openrouterMalformed => exact Or.inr (Or.inr (by rfl))
    | raised m => exact Or.inr (Or.inr (handle_api_error_error_headed m))
  · intro r
    cases r with
    | ok t => exact Or.inl ⟨t, rfl, rfl⟩
    | error e => exact Or.inr rfl
  · intro s text
    exact ⟨rfl, rfl⟩
